import Mathlib

/-!
Verification of the Geoscope ingestion / normalization / deduplication /
fusion pipeline against its design specification.

The Python sources are shallowly embedded: the canonical `IntelItem` row of
`synscope/database.py` becomes a Lean structure, the store becomes a list of
rows, each collector adapter's per-item ingestion step becomes a pure state
transformer on the store, and the external collaborators (search backend,
LLM oracle, date-parsing library, RSS parser, geocoder, live-state feeds)
are passed in as explicit inputs, so every definition is executable.
-/

set_option autoImplicit false

namespace Geoscope

/-! ## Data model (`synscope/database.py`, class `IntelItem`)

Timestamps are modelled as integers (an abstract epoch count); SQL `Float`
columns are modelled as rationals.  Columns that the adapters sometimes
leave unset take the SQLAlchemy column default (`threat_score` defaults to
0, `confidence` to 0.0, nullable columns to `none`). -/

structure IntelItem where
  timestamp : Int
  int_category : String
  source_url : String
  keyword : String
  raw_text : String
  author : Option String := none
  summary : String
  country : String
  threat_level : Option String := none
  threat_score : Int := 0
  confidence : ℚ := 0
  latitude : Option ℚ := none
  longitude : Option ℚ := none
  deriving DecidableEq

/-- The persistent store, as the list of committed rows (insertion order). -/
abbrev Store := List IntelItem

/-- `db.query(IntelItem).filter_by(source_url=u).first()` is truthy. -/
def hasKey (s : Store) (u : String) : Bool :=
  s.any (fun r => r.source_url == u)

/-- Number of stored rows whose `source_url` equals `u`. -/
def countKeyed (s : Store) (u : String) : Nat :=
  (s.filter (fun r => r.source_url == u)).length

/-- Python's substring containment `needle in hay` on character lists. -/
def containsSub (n : List Char) : List Char → Bool
  | [] => n.isEmpty
  | c :: rest => n.isPrefixOf (c :: rest) || containsSub n rest

/-- Python `needle in hay` on strings. -/
def strIn (needle hay : String) : Bool :=
  containsSub needle.toList hay.toList

/-- Python `s.lower()`, character-wise (ASCII vocabulary terms only appear
in the sources). -/
def lowerList (s : String) : List Char :=
  s.toList.map Char.toLower

/-- Python `str(x)` on an optional string (`str(None) = "None"`). -/
def pyStrOpt : Option String → String
  | some s => s
  | none => "None"

/-- Python `a or b` on two optional strings (an empty string is falsy). -/
def pyOr (a b : Option String) : Option String :=
  match a with
  | some s => if s = "" then b else some s
  | none => b

/-! ## Alert-level calculator (`synscope/core/theme.py`, `calculate_defcon`) -/

def calculate_defcon (avg_threat_score : ℚ) (critical_count : ℕ) : ℕ :=
  if 5 ≤ critical_count ∨ 85 ≤ avg_threat_score then 1
  else if 3 ≤ critical_count ∨ 70 ≤ avg_threat_score then 2
  else if 1 ≤ critical_count ∨ 50 ≤ avg_threat_score then 3
  else if 30 ≤ avg_threat_score then 4
  else 5

/-- The ordered-threshold table as written in the specification (§4.6),
first match wins; kept separate from the code-derived definition so the two
can be compared. -/
def specAlertLevel (mean_score : ℚ) (critical_count : ℕ) : ℕ :=
  if 5 ≤ critical_count ∨ 85 ≤ mean_score then 1
  else if 3 ≤ critical_count ∨ 70 ≤ mean_score then 2
  else if 1 ≤ critical_count ∨ 50 ≤ mean_score then 3
  else if 30 ≤ mean_score then 4
  else 5

/-! ## Classification oracle client (`geoscope/core/llm.py`, `analyze_text`)

The oracle's JSON reply is a Python dict whose keys may be absent; the use
sites apply `dict.get` defaults, so the parsed object is modelled with
optional fields. -/

structure Analysis where
  summary : Option String := none
  country : Option String := none
  threat_level : Option String := none
  threat_score : Option Int := none
  confidence : Option ℚ := none
  deriving DecidableEq

/-- The fixed dictionary returned by the `except` arm of `analyze_text`. -/
def fallbackAnalysis : Analysis :=
  { summary := some "Analysis failed due to model error."
    country := some "Unknown"
    threat_level := some "UNKNOWN"
    threat_score := some 0
    confidence := some 0 }

/-- `analyze_text`: the `try` block is the HTTP round trip
(`requests.post`, `raise_for_status`, `resp.json().get('response','{}')`),
modelled as an `Except` outcome carrying the oracle's raw response string,
followed by `json.loads`, modelled as the external parse function
`jsonParse` (`none` = raises); any failure in either stage lands in the
`except` arm, which returns the fixed fallback dictionary. -/
def analyze_text (httpOutcome : Except String String)
    (jsonParse : String → Option Analysis) : Analysis :=
  match httpOutcome with
  | .error _ => fallbackAnalysis
  | .ok s =>
    match jsonParse s with
    | none => fallbackAnalysis
    | some a => a

/-! ## Flexible date parsing (`geoscope/core/utils.py`, `parse_flexible_date`)

`dateutil.parser.parse(date_str, fuzzy=True)` is modelled at its interface
boundary with all of its documented outcomes: a parsed datetime, the
unparseable-input errors `ValueError` (including `ParserError`) and
`TypeError`, and the `OverflowError` it documents for dates beyond the
largest valid C integer.  The source's `except (ValueError, TypeError)`
catches only the first two error kinds, so the embedded function is
fallible: an `OverflowError` from the library propagates to the caller.
`datetime.utcnow()` is the explicit `now` argument. -/

inductive DuParseOutcome where
  | parsed (d : Int)
  | valueError
  | typeError
  | overflowError
  deriving DecidableEq

def parse_flexible_date (date_str : String) (du : DuParseOutcome)
    (now : Int) : Except String Int :=
  if date_str = "" then .ok now
  else
    match du with
    | .parsed d => .ok d
    | .valueError => .ok now
    | .typeError => .ok now
    | .overflowError => .error "OverflowError"

/-! ## Briefing aggregate statistics (`synscope/cli.py`, `generate_full`) -/

/-- `len([x for x in items if x.threat_level == "CRITICAL"])` -/
def critical_count (items : List IntelItem) : Nat :=
  (items.filter (fun x => x.threat_level == some "CRITICAL")).length

/-- `[x.threat_score for x in items if x.threat_score]` (0 is falsy). -/
def threat_scores (items : List IntelItem) : List Int :=
  (items.filter (fun x => !(x.threat_score == 0))).map (fun x => x.threat_score)

/-- `sum(threat_scores) / len(threat_scores) if threat_scores else 0` -/
def avg_score (items : List IntelItem) : ℚ :=
  let ts := threat_scores items
  if ts.isEmpty then 0 else (ts.sum : ℚ) / (ts.length : ℚ)

/-! ## Vulnerability-catalog sub-source (`geoscope/ints/cybint.py`,
`CYBINTManager.fetch_cisa_exploits`)

A catalog item as the adapter reads it with `vuln.get(...)`; the catalog
keys every item by its `cveID`.  `str(vuln)` (the Python dict repr used for
`raw_text`) is supplied as the external rendering function `pyStr`. -/

structure CisaVuln where
  cveID : String
  shortDescription : Option String := none
  vendorProject : Option String := none
  product : Option String := none
  deriving DecidableEq

def cisaRecord (pyStr : CisaVuln → String) (now : Int) (v : CisaVuln) :
    IntelItem :=
  { timestamp := now
    int_category := "CYBINT"
    source_url := v.cveID
    keyword := v.vendorProject.getD "Unknown"
    raw_text := pyStr v
    summary := "🔴 ACTIVE EXPLOIT: " ++ v.cveID ++ " - " ++
      (v.product.getD "Unknown") ++ " - " ++ pyStrOpt v.shortDescription
    country := "Global"
    threat_level := some "CRITICAL"
    threat_score := 95
    confidence := 1 }

/-- One iteration of the catalog loop: the dedup check, then
`db.add(item)`. -/
def cisaStep (pyStr : CisaVuln → String) (now : Int) (s : Store)
    (v : CisaVuln) : Store :=
  if hasKey s v.cveID then s else s ++ [cisaRecord pyStr now v]

/-- `for vuln in vulnerabilities[:20]: ...` -/
def fetch_cisa_exploits (pyStr : CisaVuln → String) (now : Int) (s : Store)
    (vulnerabilities : List CisaVuln) : Store :=
  (vulnerabilities.take 20).foldl (cisaStep pyStr now) s

/-- A concrete 21-item catalog exhibiting the `vulnerabilities[:20]` cap:
the real KEV catalog has hundreds of items, and items past position 20 are
never processed. -/
def cisaCatalogExample : List CisaVuln :=
  [{ cveID := "CVE-1" }, { cveID := "CVE-2" }, { cveID := "CVE-3" },
   { cveID := "CVE-4" }, { cveID := "CVE-5" }, { cveID := "CVE-6" },
   { cveID := "CVE-7" }, { cveID := "CVE-8" }, { cveID := "CVE-9" },
   { cveID := "CVE-10" }, { cveID := "CVE-11" }, { cveID := "CVE-12" },
   { cveID := "CVE-13" }, { cveID := "CVE-14" }, { cveID := "CVE-15" },
   { cveID := "CVE-16" }, { cveID := "CVE-17" }, { cveID := "CVE-18" },
   { cveID := "CVE-19" }, { cveID := "CVE-20" }, { cveID := "CVE-21" }]

/-! ## Syndicated-feed sub-source (`geoscope/ints/cybint.py`,
`CYBINTManager.fetch_feed`) -/

/-- A parsed RSS entry; `getattr(entry, ..., default)` is modelled by the
optional fields with their use-site defaults. -/
structure FeedEntry where
  link : Option String := none
  title : Option String := none
  summary : Option String := none
  description : Option String := none
  deriving DecidableEq

/-- `getattr(entry, 'title', 'No Title')` -/
def feedEntryTitle (e : FeedEntry) : String := e.title.getD "No Title"

/-- `getattr(entry, 'summary', getattr(entry, 'description', ''))` -/
def feedEntrySummary (e : FeedEntry) : String :=
  e.summary.getD (e.description.getD "")

def high_threat_keywords : List String :=
  ["critical", "exploit", "zero-day", "0day", "ransomware",
   "breach", "attack", "malware", "vulnerability", "CVE-"]

/-- `any(kw.lower() in title.lower() or kw.lower() in summary.lower()
for kw in high_threat_keywords)` -/
def matchesHighThreat (title summary : String) : Bool :=
  high_threat_keywords.any (fun kw =>
    containsSub (lowerList kw) (lowerList title) ||
    containsSub (lowerList kw) (lowerList summary))

def feedRecord (source_name : String) (now : Int) (e : FeedEntry)
    (link : String) : IntelItem :=
  let title := feedEntryTitle e
  let summary := feedEntrySummary e
  let high := matchesHighThreat title summary
  { timestamp := now
    int_category := "CYBINT"
    source_url := link
    keyword := "Cyber News"
    raw_text := summary.take 2000
    summary := "[" ++ source_name ++ "] " ++ title
    author := some source_name
    country := "Global"
    threat_level := some (if high then "HIGH" else "UNKNOWN")
    threat_score := if high then 75 else 50
    confidence := 0 }

/-- One iteration of the feed loop: missing link ⇒ skip, dedup check,
otherwise `db.add(item)`. -/
def feedStep (source_name : String) (now : Int) (s : Store) (e : FeedEntry) :
    Store :=
  match e.link with
  | none => s
  | some link =>
    if hasKey s link then s else s ++ [feedRecord source_name now e link]

/-- `for entry in feed.entries[:limit]: ...` -/
def fetch_feed (source_name : String) (now : Int) (limit : Nat) (s : Store)
    (entries : List FeedEntry) : Store :=
  (entries.take limit).foldl (feedStep source_name now) s

/-! ## Web-news adapter (`synscope/ints/osint.py`, `OSINTManager.bulk_fetch`)

A DuckDuckGo result dict (`news` and `text` backends use different keys,
hence both `url` and `href`; news results also carry a `date` that the
adapter never reads). -/

structure SearchResult where
  url : Option String := none
  href : Option String := none
  title : Option String := none
  source : Option String := none
  body : Option String := none
  date : Option String := none
  deriving DecidableEq

/-- The outcome of `newspaper.Article(url); article.download();
article.parse()` followed by `clean_text(article.text)`: `cleanedText` is
the cleaned full text, and `authorsStr` models
`str(article.authors) if article.authors else None` (the Python list repr,
`none` when the author list is empty).  `.error` models any exception in
the per-item `try` block, which the `except: continue` swallows. -/
structure OsintExtract where
  cleanedText : String
  authorsStr : Option String := none
  deriving DecidableEq

def osintRecord (keyword : String) (now : Int) (r : SearchResult)
    (x : OsintExtract) (a : Analysis) (url : String) : IntelItem :=
  let raw_body :=
    if x.cleanedText.length < 100 then r.body.getD "" else x.cleanedText
  { timestamp := now
    int_category := "OSINT"
    source_url := url
    keyword := keyword
    raw_text := pyStrOpt r.title ++ "\n\n" ++ raw_body
    author := some (x.authorsStr.getD (r.source.getD "Web Search"))
    summary := a.summary.getD "Analysis Failed"
    country := a.country.getD "Unknown"
    threat_level := some (a.threat_level.getD "UNKNOWN")
    threat_score := a.threat_score.getD 0
    confidence := a.confidence.getD 0 }

/-- One iteration of the OSINT loop: `url = r.get('url') or r.get('href')`,
skip when falsy or already stored, then extract / analyze /
`db.add`+`commit`, with any per-item exception abandoning the item. -/
def osintStep (keyword : String) (now : Int) (s : Store) (r : SearchResult)
    (ext : Except Unit OsintExtract) (a : Analysis) : Store :=
  match pyOr r.url r.href with
  | none => s
  | some url =>
    if url = "" then s
    else if hasKey s url then s
    else
      match ext with
      | .error _ => s
      | .ok x => s ++ [osintRecord keyword now r x a url]

/-! ## Social-search adapter (`synscope/ints/socmint.py`,
`SOCMINTManager.run_social_search`) -/

/-- Post-hoc platform inference from URL substrings. -/
def socmintPlatform (url : String) : String :=
  if strIn "reddit.com" url then "Reddit"
  else if strIn "t.me" url then "Telegram"
  else if strIn "twitter.com" url || strIn "x.com" url then "X (Twitter)"
  else "Unknown"

def socmintRecord (keyword : String) (now : Int)
    (user subreddit : Option String) (r : SearchResult) (a : Analysis) :
    IntelItem :=
  let url := r.href.getD ""
  let title := r.title.getD ""
  let body := r.body.getD ""
  let platform := socmintPlatform url
  let full_text := "[" ++ platform ++ "] " ++ title ++ "\n" ++ body
  { timestamp := now
    int_category := "SOCMINT"
    source_url := url
    keyword := keyword
    raw_text := full_text
    author := some
      (match user with
       | some u => "@" ++ u
       | none =>
         match subreddit with
         | some sr => "r/" ++ sr
         | none => platform)
    summary := a.summary.getD body
    country := a.country.getD "Unknown"
    threat_level := some (a.threat_level.getD "UNKNOWN")
    threat_score := a.threat_score.getD 0
    confidence := a.confidence.getD 0 }

/-- One iteration of the SOCMINT loop: dedup check on the result URL, then
analyze and `db.add`+`commit`. -/
def socmintStep (keyword : String) (now : Int)
    (user subreddit : Option String) (s : Store) (r : SearchResult)
    (a : Analysis) : Store :=
  if hasKey s (r.href.getD "") then s
  else s ++ [socmintRecord keyword now user subreddit r a]

/-! ## Flight-registry adapter (`synscope/ints/adsint.py`,
`ADSINTManager.scan_region`) -/

def MILITARY_CALLSIGNS : List String :=
  ["RCH", "DUKE", "EVIL", "KNIFE", "VIKING", "DOOM", "DEATH", "BONE",
   "GHOST", "SNAKE", "ARROW", "NATO", "RRR", "MMF", "IAM", "GAF",
   "FORTE", "LAGR"]

def INTERESTING_AIRCRAFT : List (String × String) :=
  [("AE01D5", "USAF E-4B Nightwatch (Doomsday Plane)"),
   ("AE041B", "USAF RC-135V Rivet Joint"),
   ("AE0425", "USAF RC-135W Rivet Joint"),
   ("AE5420", "USAF E-6B Mercury (TACAMO)"),
   ("43C6C4", "RAF RC-135W Rivet Joint")]

/-- One OpenSky state vector, after the adapter's own destructuring
(`callsign` already has `(state[1] or "").strip()` applied). -/
structure AircraftState where
  icao24 : String
  callsign : String
  origin_country : String
  longitude : ℚ
  latitude : ℚ
  altitude : ℚ
  velocity : ℚ
  deriving DecidableEq

/-- `any(callsign.upper().startswith(p) for p in MILITARY_CALLSIGNS)` -/
def adsintIsMilitary (st : AircraftState) : Bool :=
  MILITARY_CALLSIGNS.any (fun p => st.callsign.toUpper.startsWith p)

/-- `icao24.upper() in INTERESTING_AIRCRAFT` -/
def adsintIsKnown (st : AircraftState) : Bool :=
  (INTERESTING_AIRCRAFT.lookup st.icao24.toUpper).isSome

/-- The composite dedup identifier: hardware id plus the collection hour
(`datetime.now().strftime('%Y%m%d%H')`, supplied as `hourStamp`). -/
def adsintSourceId (st : AircraftState) (hourStamp : String) : String :=
  "ADSINT-" ++ st.icao24 ++ "-" ++ hourStamp

def adsintRecord (fmt0 : ℚ → String) (hourStamp : String) (now : Int)
    (st : AircraftState) : IntelItem :=
  let aircraft_name :=
    (INTERESTING_AIRCRAFT.lookup st.icao24.toUpper).getD
      ("Military (" ++ st.callsign ++ ")")
  { timestamp := now
    int_category := "ADSINT"
    source_url := adsintSourceId st hourStamp
    keyword := if st.callsign = "" then st.icao24 else st.callsign
    raw_text := "ICAO: " ++ st.icao24 ++ ", Callsign: " ++ st.callsign ++
      ", Country: " ++ st.origin_country
    summary := "🛩️ " ++ aircraft_name ++ " | Callsign: " ++ st.callsign ++
      " | Alt: " ++ fmt0 st.altitude ++ "m | Speed: " ++ fmt0 st.velocity ++
      "m/s | Origin: " ++ st.origin_country
    country := st.origin_country
    latitude := some st.latitude
    longitude := some st.longitude
    threat_level := some (if adsintIsKnown st then "HIGH" else "ELEVATED")
    threat_score := if adsintIsKnown st then 75 else 50
    confidence := 1 }

/-- One iteration of the states loop: military/high-value filter first,
then the composite-key dedup check, then `db.add(item)`.  `fmt0` models
Python's `:.0f` float formatting (display only). -/
def adsintStep (fmt0 : ℚ → String) (hourStamp : String) (now : Int)
    (s : Store) (st : AircraftState) : Store :=
  if adsintIsMilitary st || adsintIsKnown st then
    if hasKey s (adsintSourceId st hourStamp) then s
    else s ++ [adsintRecord fmt0 hourStamp now st]
  else s

/-! ## Maritime adapter (`synscope/ints/maritint.py`,
`MARITINTManager._generate_regional_intel`) -/

/-- One curated regional activity pattern (the fixture data). -/
structure RegionalPattern where
  name : String
  kind : String
  lat : ℚ
  lon : ℚ
  detail : String
  deriving DecidableEq

/-- The composite dedup identifier: entry name (spaces dashed) plus the
collection date (`datetime.now().strftime('%Y%m%d')`, supplied as
`dateStamp`). -/
def maritintSourceId (p : RegionalPattern) (dateStamp : String) : String :=
  "MARITINT-" ++ p.name.replace " " "-" ++ "-" ++ dateStamp

def maritintRecord (dateStamp : String) (now : Int) (region : String)
    (p : RegionalPattern) : IntelItem :=
  { timestamp := now
    int_category := "MARITINT"
    source_url := maritintSourceId p dateStamp
    keyword := p.kind
    raw_text := p.name ++ ": " ++ p.detail
    summary := "🚢 " ++ p.name ++ " | " ++ p.kind ++ " | " ++ p.detail
    country := region
    latitude := some p.lat
    longitude := some p.lon
    threat_level := some "ELEVATED"
    threat_score := 55
    confidence := 7 / 10 }

/-- One iteration of the patterns loop: composite-key dedup check, then
`db.add(item)`. -/
def maritintStep (dateStamp : String) (now : Int) (region : String)
    (s : Store) (p : RegionalPattern) : Store :=
  if hasKey s (maritintSourceId p dateStamp) then s
  else s ++ [maritintRecord dateStamp now region p]

/-! ## Satellite-metadata adapter (`geoscope/ints/geoint.py`,
`GEOINTManager.search_satellite_metadata`) -/

/-- One STAC catalog scene as the loop reads it: `datetimeParsed` is
`datetime.fromisoformat(acquisition_date...)` at the boundary,
`acquisition_date` / `cloudStr` / `propsStr` are the strings interpolated
into `summary` and `raw_text`. -/
structure StacItem where
  id : String
  datetimeParsed : Int
  acquisition_date : String
  cloudStr : String
  propsStr : String
  deriving DecidableEq

def geointRecord (location_name : String) (lat lon : ℚ) (it : StacItem) :
    IntelItem :=
  { timestamp := it.datetimeParsed
    int_category := "GEOINT"
    source_url := "STAC:" ++ it.id
    keyword := location_name
    raw_text := it.propsStr
    summary := "Satellite Pass: Sentinel-2. Cloud Cover: " ++ it.cloudStr ++
      "%. Date: " ++ it.acquisition_date ++ "."
    country := location_name
    threat_score := 0
    latitude := some lat
    longitude := some lon }

/-- One iteration of the scenes loop: dedup check on `"STAC:" + item.id`,
then `db.add(intel)`.  `threat_level` and `confidence` are left to the
column defaults. -/
def geointStep (location_name : String) (lat lon : ℚ) (s : Store)
    (it : StacItem) : Store :=
  if hasKey s ("STAC:" ++ it.id) then s
  else s ++ [geointRecord location_name lat lon it]

/-! ## Signal-log adapter (`geoscope/ints/signals.py`,
`SignalsManager.ingest_log_file`) -/

/-- One match produced by `detect_eam_patterns`. -/
structure DetectedSignal where
  kind : String
  content : String
  priority : String
  deriving DecidableEq

/-- `f"SIGINT-{hash(sig_content)}"`; Python's `hash` is supplied as the
external function `hashFn`. -/
def sigSourceId (hashFn : String → Int) (sig : DetectedSignal) : String :=
  "SIGINT-" ++ toString (hashFn sig.content)

def sigRecord (hashFn : String → Int) (now : Int) (sig : DetectedSignal) :
    IntelItem :=
  { timestamp := now
    int_category := "COMINT"
    source_url := sigSourceId hashFn sig
    keyword := "HFGCS"
    raw_text := sig.content
    summary := "Intercepted " ++ sig.kind ++ ": " ++ sig.content.take 50 ++
      "..."
    country := "Global"
    threat_level := some sig.priority
    threat_score := if sig.kind = "EAM-SKYKING" then 90 else 60
    confidence := 1 }

/-- One iteration of the detected-signals loop: content-hash dedup check,
then `db.add(item)`. -/
def sigStep (hashFn : String → Int) (now : Int) (s : Store)
    (sig : DetectedSignal) : Store :=
  if hasKey s (sigSourceId hashFn sig) then s
  else s ++ [sigRecord hashFn now sig]

/-- The specification's range invariant for stored rows (§3):
`threat_score ∈ [0,100]` and `confidence ∈ [0,1]`. -/
def scoreConfInRange (r : IntelItem) : Prop :=
  0 ≤ r.threat_score ∧ r.threat_score ≤ 100 ∧
  0 ≤ r.confidence ∧ r.confidence ≤ 1

/-! ## General store lemmas -/

theorem hasKey_false_iff (s : Store) (u : String) :
    hasKey s u = false ↔ ∀ r ∈ s, r.source_url ≠ u := by
  simp [hasKey, List.any_eq_false]

theorem countKeyed_append (s t : Store) (u : String) :
    countKeyed (s ++ t) u = countKeyed s u + countKeyed t u := by
  simp [countKeyed, List.filter_append]

theorem countKeyed_singleton (r : IntelItem) (u : String) :
    countKeyed [r] u = if r.source_url = u then 1 else 0 := by
  by_cases h : r.source_url = u <;>
    simp [countKeyed, List.filter_singleton, h]

theorem hasKey_iff_countKeyed_pos (s : Store) (u : String) :
    hasKey s u = true ↔ 0 < countKeyed s u := by
  constructor
  · intro h
    obtain ⟨r, hr, he⟩ := List.any_eq_true.mp h
    exact List.length_pos_of_mem (List.mem_filter.mpr ⟨hr, he⟩)
  · intro h
    obtain ⟨r, hr⟩ := List.exists_mem_of_length_pos h
    obtain ⟨hrs, hru⟩ := List.mem_filter.mp hr
    exact List.any_eq_true.mpr ⟨r, hrs, hru⟩

theorem hasKey_false_iff_countKeyed_zero (s : Store) (u : String) :
    hasKey s u = false ↔ countKeyed s u = 0 := by
  rw [← Bool.not_eq_true, hasKey_iff_countKeyed_pos]
  omega

theorem mem_append_single {s : Store} {rec r : IntelItem}
    (h : r ∈ s ++ [rec]) : r ∈ s ∨ r = rec := by
  simpa using h

/-- Helper for the oracle-scored adapters: `dict.get` defaults put the
stored score and confidence in range whenever the oracle reply's fields
are in range. -/
theorem analysis_fields_in_range (a : Analysis)
    (hs : ∀ n : Int, a.threat_score = some n → 0 ≤ n ∧ n ≤ 100)
    (hc : ∀ q : ℚ, a.confidence = some q → 0 ≤ q ∧ q ≤ 1) :
    0 ≤ a.threat_score.getD 0 ∧ a.threat_score.getD 0 ≤ 100 ∧
    0 ≤ a.confidence.getD 0 ∧ a.confidence.getD 0 ≤ 1 := by
  refine ⟨?_, ?_, ?_, ?_⟩
  · cases hts : a.threat_score with
    | none => simp
    | some n => simpa using (hs n hts).1
  · cases hts : a.threat_score with
    | none => simp
    | some n => simpa using (hs n hts).2
  · cases hcf : a.confidence with
    | none => simp
    | some q => simpa using (hc q hcf).1
  · cases hcf : a.confidence with
    | none => simp
    | some q => simpa using (hc q hcf).2

/-- Generic fact about the adapters' ingestion loops: if each iteration
either leaves the store unchanged or appends one new record satisfying `Q`
for its item, then every record of the final store is an original record
or satisfies `Q` for some item of the batch. -/
theorem foldl_mem_invariant {α : Type} (step : Store → α → Store)
    (Q : α → IntelItem → Prop)
    (H : ∀ s x, step s x = s ∨ ∃ rec, step s x = s ++ [rec] ∧ Q x rec) :
    ∀ (l : List α) (s : Store) (r : IntelItem),
      r ∈ l.foldl step s → r ∈ s ∨ ∃ x ∈ l, Q x r := by
  intro l
  induction l with
  | nil => exact fun s r hr => Or.inl hr
  | cons x xs ih =>
    intro s r hr
    simp only [List.foldl_cons] at hr
    rcases H s x with h | ⟨rec, he, hq⟩
    · rw [h] at hr
      rcases ih _ _ hr with h' | ⟨y, hy, hqy⟩
      · exact Or.inl h'
      · exact Or.inr ⟨y, List.mem_cons_of_mem _ hy, hqy⟩
    · rw [he] at hr
      rcases ih _ _ hr with h' | ⟨y, hy, hqy⟩
      · rcases List.mem_append.mp h' with h'' | h''
        · exact Or.inl h''
        · have hrec : r = rec := by simpa using h''
          exact Or.inr ⟨x, List.mem_cons_self x xs, hrec ▸ hq⟩
      · exact Or.inr ⟨y, List.mem_cons_of_mem _ hy, hqy⟩

/-- Generic dedup-gate counting: a loop which, for each item, appends one
record keyed `keyOf x` exactly when no record with that key is present
keeps at most one record per key, and reaches exactly one for every key of
the batch. -/
theorem foldl_countKeyed_dedup {α : Type} (step : Store → α → Store)
    (keyOf : α → String) (mk : α → IntelItem)
    (Hstep : ∀ s x, step s x =
      if hasKey s (keyOf x) then s else s ++ [mk x])
    (Hkey : ∀ x, (mk x).source_url = keyOf x) :
    ∀ (l : List α) (s : Store) (c : String),
      countKeyed (l.foldl step s) c =
        if countKeyed s c = 0 ∧ c ∈ l.map keyOf then 1 else countKeyed s c := by
  intro l
  induction l with
  | nil => simp
  | cons x xs ih =>
    intro s c
    simp only [List.foldl_cons, Hstep]
    by_cases hk : hasKey s (keyOf x)
    · rw [if_pos hk, ih]
      have hpos : 0 < countKeyed s (keyOf x) :=
        (hasKey_iff_countKeyed_pos s (keyOf x)).mp hk
      by_cases hc : c = keyOf x
      · have hnz : ¬(countKeyed s c = 0) := by rw [hc]; omega
        simp [hnz]
      · simp [List.map_cons, List.mem_cons, hc]
    · rw [if_neg hk, ih]
      have hz : countKeyed s (keyOf x) = 0 :=
        (hasKey_false_iff_countKeyed_zero s (keyOf x)).mp
          (Bool.not_eq_true _ ▸ hk)
      have hcnt : countKeyed (s ++ [mk x]) c =
          countKeyed s c + if keyOf x = c then 1 else 0 := by
        rw [countKeyed_append, countKeyed_singleton, Hkey]
      by_cases hc : c = keyOf x
      · have hz' : countKeyed s c = 0 := by rw [hc]; exact hz
        have h1 : countKeyed (s ++ [mk x]) c = 1 := by
          rw [hcnt, hz', if_pos hc.symm]
        have hmem : c ∈ List.map keyOf (x :: xs) := by
          rw [hc]; exact List.mem_map_of_mem keyOf (List.mem_cons_self x xs)
        have hfalse : ¬(countKeyed (s ++ [mk x]) c = 0 ∧
            c ∈ List.map keyOf xs) := by
          rw [h1]; simp
        rw [if_neg hfalse, h1, if_pos ⟨hz', hmem⟩]
      · have hcc : countKeyed (s ++ [mk x]) c = countKeyed s c := by
          rw [hcnt, if_neg (fun hh => hc hh.symm), Nat.add_zero]
        rw [hcc]
        simp [List.map_cons, List.mem_cons, hc]

/-! ## C2 and C3: the alert-level calculator -/

/-- C2: the alert-level calculator is total on its whole domain and agrees
with the specification's ordered threshold table (first match wins), and
takes the specified values at the boundary cases `(85,0) ↦ 1`,
`(84.99,0) ↦ 2`, `(0,5) ↦ 1`, `(0,0) ↦ 5`. -/
theorem calculate_defcon_matches_spec_thresholds :
    (∀ (m : ℚ) (c : ℕ), calculate_defcon m c = specAlertLevel m c) ∧
    calculate_defcon 85 0 = 1 ∧
    calculate_defcon (84.99 : ℚ) 0 = 2 ∧
    calculate_defcon 0 5 = 1 ∧
    calculate_defcon 0 0 = 5 := by
  refine ⟨fun m c => rfl, ?_, ?_, ?_, ?_⟩ <;> norm_num [calculate_defcon]

theorem defcon_eq_one {m : ℚ} {c : ℕ} (h : 5 ≤ c ∨ 85 ≤ m) :
    calculate_defcon m c = 1 := by
  unfold calculate_defcon; rw [if_pos h]

theorem defcon_le_two {m : ℚ} {c : ℕ} (h : 3 ≤ c ∨ 70 ≤ m) :
    calculate_defcon m c ≤ 2 := by
  unfold calculate_defcon
  split_ifs with a b <;> first | norm_num | exact absurd h b

theorem defcon_le_three {m : ℚ} {c : ℕ} (h : 1 ≤ c ∨ 50 ≤ m) :
    calculate_defcon m c ≤ 3 := by
  unfold calculate_defcon
  split_ifs with a b x <;> first | norm_num | exact absurd h x

theorem defcon_le_four {m : ℚ} {c : ℕ} (h : 30 ≤ m) :
    calculate_defcon m c ≤ 4 := by
  unfold calculate_defcon
  split_ifs with a b x y <;> first | norm_num | exact absurd h y

theorem defcon_le_five (m : ℚ) (c : ℕ) : calculate_defcon m c ≤ 5 := by
  unfold calculate_defcon
  split_ifs <;> norm_num

/-- C3: the alert-level calculator is antitone in both arguments: raising
the mean score or the critical count never raises the numeric level
(never lowers severity, since 1 is most severe). -/
theorem calculate_defcon_monotone (m₁ m₂ : ℚ) (c₁ c₂ : ℕ)
    (hm₀ : 0 ≤ m₁) (hm : m₁ ≤ m₂) (hc : c₁ ≤ c₂) :
    calculate_defcon m₂ c₂ ≤ calculate_defcon m₁ c₁ := by
  by_cases h1 : 5 ≤ c₁ ∨ 85 ≤ m₁
  · have h1' : 5 ≤ c₂ ∨ 85 ≤ m₂ :=
      h1.elim (fun h => Or.inl (le_trans h hc)) (fun h => Or.inr (le_trans h hm))
    rw [defcon_eq_one h1', defcon_eq_one h1]
  · by_cases h2 : 3 ≤ c₁ ∨ 70 ≤ m₁
    · have h2' : 3 ≤ c₂ ∨ 70 ≤ m₂ :=
        h2.elim (fun h => Or.inl (le_trans h hc)) (fun h => Or.inr (le_trans h hm))
      have e : calculate_defcon m₁ c₁ = 2 := by
        unfold calculate_defcon; rw [if_neg h1, if_pos h2]
      rw [e]; exact defcon_le_two h2'
    · by_cases h3 : 1 ≤ c₁ ∨ 50 ≤ m₁
      · have h3' : 1 ≤ c₂ ∨ 50 ≤ m₂ :=
          h3.elim (fun h => Or.inl (le_trans h hc)) (fun h => Or.inr (le_trans h hm))
        have e : calculate_defcon m₁ c₁ = 3 := by
          unfold calculate_defcon; rw [if_neg h1, if_neg h2, if_pos h3]
        rw [e]; exact defcon_le_three h3'
      · by_cases h4 : 30 ≤ m₁
        · have e : calculate_defcon m₁ c₁ = 4 := by
            unfold calculate_defcon; rw [if_neg h1, if_neg h2, if_neg h3, if_pos h4]
          rw [e]; exact defcon_le_four (le_trans h4 hm)
        · have e : calculate_defcon m₁ c₁ = 5 := by
            unfold calculate_defcon; rw [if_neg h1, if_neg h2, if_neg h3, if_neg h4]
          rw [e]; exact defcon_le_five m₂ c₂

/-- Witness for C3 at a concrete pair of inputs. -/
theorem calculate_defcon_monotone_witness :
    calculate_defcon 72 4 ≤ calculate_defcon 55 1 :=
  calculate_defcon_monotone 55 72 1 4 (by norm_num) (by norm_num)
    (by norm_num)

/-! ## C4: oracle failure degrades to the fixed fallback label -/

/-- C4: whenever the oracle call fails at either stage (transport error or
unparseable reply), `analyze_text` returns — rather than raising — exactly
the fixed fallback record, whose fields are the documented constants. -/
theorem analyze_text_fallback_on_failure :
    (∀ (e : String) (jp : String → Option Analysis),
      analyze_text (.error e) jp = fallbackAnalysis) ∧
    (∀ (s : String) (jp : String → Option Analysis), jp s = none →
      analyze_text (.ok s) jp = fallbackAnalysis) ∧
    fallbackAnalysis.summary = some "Analysis failed due to model error." ∧
    fallbackAnalysis.country = some "Unknown" ∧
    fallbackAnalysis.threat_level = some "UNKNOWN" ∧
    fallbackAnalysis.threat_score = some 0 ∧
    fallbackAnalysis.confidence = some 0 := by
  refine ⟨fun e jp => rfl, fun s jp h => ?_, rfl, rfl, rfl, rfl, rfl⟩
  simp [analyze_text, h]

/-- Witness for C4: a concrete oracle reply that fails to parse yields the
fallback record. -/
theorem analyze_text_fallback_on_failure_witness :
    analyze_text (.ok "not a json object") (fun _ => none) = fallbackAnalysis :=
  analyze_text_fallback_on_failure.2.1 "not a json object" (fun _ => none) rfl

/-! ## C8: flexible date parsing, fallback and the uncaught overflow path -/

/-- C8 counterexample: the claim says the parser never raises for any date
string, but the source catches only `(ValueError, TypeError)` while the
date library documents an `OverflowError` for dates beyond the largest
valid C integer; on such an input the exception propagates instead of a
datetime being returned. -/
theorem parse_flexible_date_overflow_counterexample :
    parse_flexible_date "9999999999999999999" DuParseOutcome.overflowError
      0 = Except.error "OverflowError" := by
  rfl

/-- C8 as amended: for every input whose library parse does not overflow,
the parser returns a datetime and raises nothing — an empty string or an
unparseable one (the caught `ValueError` / `TypeError` outcomes) falls
back to the current UTC time, and a parseable string yields the parsed
datetime, never null; the library's `OverflowError` is the one uncaught
path. -/
theorem parse_flexible_date_fallback_amended :
    (∀ (du : DuParseOutcome) (now : Int),
      parse_flexible_date "" du now = .ok now) ∧
    (∀ (s : String) (now : Int),
      parse_flexible_date s .valueError now = .ok now) ∧
    (∀ (s : String) (now : Int),
      parse_flexible_date s .typeError now = .ok now) ∧
    (∀ (s : String) (d now : Int), s ≠ "" →
      parse_flexible_date s (.parsed d) now = .ok d) := by
  refine ⟨fun du now => rfl, fun s now => ?_, fun s now => ?_,
    fun s d now h => ?_⟩
  · unfold parse_flexible_date
    split <;> rfl
  · unfold parse_flexible_date
    split <;> rfl
  · unfold parse_flexible_date
    rw [if_neg h]

/-- Witness for the amended C8 on a concrete parseable string. -/
theorem parse_flexible_date_fallback_amended_witness :
    parse_flexible_date "2024-01-02T03:04:05Z"
      (DuParseOutcome.parsed 1704164645) 999 = Except.ok 1704164645 :=
  parse_flexible_date_fallback_amended.2.2.2 "2024-01-02T03:04:05Z"
    1704164645 999 (by decide)

/-! ## C9: briefing aggregate statistics -/

/-- C9: the briefing statistics ignore zero-score records when averaging,
report mean 0 (not an error) when no nonzero-score record matches, equal
the plain arithmetic mean when every record has a nonzero score, and count
exactly the records labelled CRITICAL. -/
theorem generate_full_stats_spec :
    (∀ (x : IntelItem) (xs : List IntelItem), x.threat_score = 0 →
      avg_score (x :: xs) = avg_score xs) ∧
    (∀ xs : List IntelItem, (∀ x ∈ xs, x.threat_score = 0) →
      avg_score xs = 0) ∧
    (∀ xs : List IntelItem, (∀ x ∈ xs, x.threat_score ≠ 0) → xs ≠ [] →
      avg_score xs =
        ((xs.map (fun x => x.threat_score)).sum : ℚ) / (xs.length : ℚ)) ∧
    (∀ (x : IntelItem) (xs : List IntelItem),
      critical_count (x :: xs) =
        critical_count xs +
          (if x.threat_level = some "CRITICAL" then 1 else 0)) := by
  refine ⟨fun x xs h => ?_, fun xs h => ?_, fun xs h hne => ?_, fun x xs => ?_⟩
  · simp [avg_score, threat_scores, h]
  · have : threat_scores xs = [] := by
      simp only [threat_scores, List.map_eq_nil_iff, List.filter_eq_nil_iff]
      intro a ha
      simp [h a ha]
    simp [avg_score, this]
  · have hf : xs.filter (fun x => !(x.threat_score == 0)) = xs :=
      List.filter_eq_self.mpr (fun a ha => by simp [h a ha])
    simp [avg_score, threat_scores, hf, List.isEmpty_iff, hne,
      Function.comp_def]
  · by_cases h : x.threat_level = some "CRITICAL" <;>
      simp [critical_count, List.filter_cons, h]

/-- Witness for C9 on concrete record lists. -/
theorem generate_full_stats_spec_witness :
    avg_score
        [{ timestamp := 0, int_category := "OSINT", source_url := "u1",
           keyword := "k", raw_text := "t", summary := "s", country := "c",
           threat_score := 0 },
         { timestamp := 0, int_category := "OSINT", source_url := "u2",
           keyword := "k", raw_text := "t", summary := "s", country := "c",
           threat_score := 80 }] =
      avg_score
        [{ timestamp := 0, int_category := "OSINT", source_url := "u2",
           keyword := "k", raw_text := "t", summary := "s", country := "c",
           threat_score := 80 }] :=
  generate_full_stats_spec.1
    { timestamp := 0, int_category := "OSINT", source_url := "u1",
      keyword := "k", raw_text := "t", summary := "s", country := "c",
      threat_score := 0 }
    [{ timestamp := 0, int_category := "OSINT", source_url := "u2",
       keyword := "k", raw_text := "t", summary := "s", country := "c",
       threat_score := 80 }] rfl

/-! ## C1: idempotent re-ingestion through the dedup gate -/

/-- C1: for an identifier already present in the store, every adapter's
per-item ingestion step is a silent no-op: the store is returned unchanged
(so the one existing record keyed by the identifier is all there is, and
no duplicate row is inserted), on every collector's ingestion path. -/
theorem ingestion_idempotent_on_existing_identifier :
    (∀ (pyStr : CisaVuln → String) (now : Int) (s : Store) (v : CisaVuln),
      hasKey s v.cveID = true → cisaStep pyStr now s v = s) ∧
    (∀ (src : String) (now : Int) (s : Store) (e : FeedEntry) (l : String),
      e.link = some l → hasKey s l = true → feedStep src now s e = s) ∧
    (∀ (kw : String) (now : Int) (s : Store) (r : SearchResult)
       (ext : Except Unit OsintExtract) (a : Analysis) (u : String),
      pyOr r.url r.href = some u → hasKey s u = true →
      osintStep kw now s r ext a = s) ∧
    (∀ (kw : String) (now : Int) (user subreddit : Option String)
       (s : Store) (r : SearchResult) (a : Analysis),
      hasKey s (r.href.getD "") = true →
      socmintStep kw now user subreddit s r a = s) ∧
    (∀ (fmt0 : ℚ → String) (hourStamp : String) (now : Int) (s : Store)
       (st : AircraftState),
      hasKey s (adsintSourceId st hourStamp) = true →
      adsintStep fmt0 hourStamp now s st = s) ∧
    (∀ (dateStamp : String) (now : Int) (region : String) (s : Store)
       (p : RegionalPattern),
      hasKey s (maritintSourceId p dateStamp) = true →
      maritintStep dateStamp now region s p = s) ∧
    (∀ (loc : String) (lat lon : ℚ) (s : Store) (it : StacItem),
      hasKey s ("STAC:" ++ it.id) = true →
      geointStep loc lat lon s it = s) ∧
    (∀ (hashFn : String → Int) (now : Int) (s : Store)
       (sig : DetectedSignal),
      hasKey s (sigSourceId hashFn sig) = true →
      sigStep hashFn now s sig = s) := by
  refine ⟨fun pyStr now s v h => ?_, fun src now s e l hl h => ?_,
    fun kw now s r ext a u hu h => ?_, fun kw now user sr s r a h => ?_,
    fun fmt0 hs now s st h => ?_, fun ds now reg s p h => ?_,
    fun loc lat lon s it h => ?_, fun hf now s sig h => ?_⟩
  · simp [cisaStep, h]
  · simp [feedStep, hl, h]
  · simp [osintStep, hu, h]
  · simp [socmintStep, h]
  · simp [adsintStep, h]
  · simp [maritintStep, h]
  · simp [geointStep, h]
  · simp [sigStep, h]

/-- Witness for C1: re-ingesting a CVE already keyed in a concrete store
leaves the store unchanged. -/
theorem ingestion_idempotent_on_existing_identifier_witness :
    cisaStep (fun _ => "raw") 7
      [{ timestamp := 0, int_category := "CYBINT",
         source_url := "CVE-2024-0001", keyword := "V", raw_text := "raw",
         summary := "s", country := "Global",
         threat_level := some "CRITICAL", threat_score := 95,
         confidence := 1 }]
      { cveID := "CVE-2024-0001" } =
      [{ timestamp := 0, int_category := "CYBINT",
         source_url := "CVE-2024-0001", keyword := "V", raw_text := "raw",
         summary := "s", country := "Global",
         threat_level := some "CRITICAL", threat_score := 95,
         confidence := 1 }] :=
  ingestion_idempotent_on_existing_identifier.1 (fun _ => "raw") 7
    [{ timestamp := 0, int_category := "CYBINT",
       source_url := "CVE-2024-0001", keyword := "V", raw_text := "raw",
       summary := "s", country := "Global",
       threat_level := some "CRITICAL", threat_score := 95,
       confidence := 1 }]
    { cveID := "CVE-2024-0001" } (by decide)

/-! ## C5: new catalog items are stored once, CRITICAL / 95 / 1.0 -/

/-- C5 counterexample: the claim quantifies over every catalog item not
already present, but the adapter processes only `vulnerabilities[:20]`;
for a 21-item catalog over an empty store, the 21st item's identifier is
absent beforehand and yet no record keyed by it is produced. -/
theorem fetch_cisa_exploits_cap_counterexample :
    hasKey ([] : Store) "CVE-21" = false ∧
    "CVE-21" ∈ cisaCatalogExample.map (fun v => v.cveID) ∧
    countKeyed
      (fetch_cisa_exploits (fun _ => "raw") 0 [] cisaCatalogExample)
      "CVE-21" = 0 := by
  refine ⟨rfl, by decide, by decide⟩

/-- C5 as amended: a vulnerability-catalog item among the first 20 the
adapter processes (`vulnerabilities[:20]`) whose `cveID` is not yet stored
yields exactly one stored record keyed by that identifier, with category
CYBINT, threat level CRITICAL, threat score 95 and confidence 1.0. -/
theorem fetch_cisa_exploits_new_item (pyStr : CisaVuln → String) (now : Int)
    (s : Store) (vulns : List CisaVuln) (c : String)
    (habs : hasKey s c = false)
    (hmem : c ∈ (vulns.take 20).map (fun v => v.cveID)) :
    countKeyed (fetch_cisa_exploits pyStr now s vulns) c = 1 ∧
    ∀ r ∈ fetch_cisa_exploits pyStr now s vulns, r.source_url = c →
      r.int_category = "CYBINT" ∧ r.threat_level = some "CRITICAL" ∧
      r.threat_score = 95 ∧ r.confidence = 1 := by
  constructor
  · rw [fetch_cisa_exploits,
      foldl_countKeyed_dedup (cisaStep pyStr now) (fun v => v.cveID)
        (cisaRecord pyStr now) (fun s v => rfl) (fun v => rfl)]
    rw [if_pos ⟨(hasKey_false_iff_countKeyed_zero s c).mp habs, hmem⟩]
  · intro r hr hru
    have hmem' := foldl_mem_invariant (cisaStep pyStr now)
      (fun v rec => rec = cisaRecord pyStr now v)
      (fun s v => by
        unfold cisaStep
        by_cases hk : hasKey s v.cveID
        · exact Or.inl (if_pos hk)
        · exact Or.inr ⟨cisaRecord pyStr now v, if_neg hk, rfl⟩)
      (vulns.take 20) s r hr
    rcases hmem' with hin | ⟨v, hv, hrec⟩
    · exact absurd hru ((hasKey_false_iff s c).mp habs r hin)
    · subst hrec
      exact ⟨rfl, rfl, rfl, rfl⟩

/-- Witness for C5 on a one-item catalog over an empty store. -/
theorem fetch_cisa_exploits_new_item_witness :
    countKeyed
        (fetch_cisa_exploits (fun _ => "raw") 0 []
          [{ cveID := "CVE-2024-0001", shortDescription := some "d",
             vendorProject := some "Vend", product := some "X" }])
        "CVE-2024-0001" = 1 ∧
    ∀ r ∈ fetch_cisa_exploits (fun _ => "raw") 0 []
        [{ cveID := "CVE-2024-0001", shortDescription := some "d",
           vendorProject := some "Vend", product := some "X" }],
      r.source_url = "CVE-2024-0001" →
      r.int_category = "CYBINT" ∧ r.threat_level = some "CRITICAL" ∧
      r.threat_score = 95 ∧ r.confidence = 1 :=
  fetch_cisa_exploits_new_item (fun _ => "raw") 0 []
    [{ cveID := "CVE-2024-0001", shortDescription := some "d",
       vendorProject := some "Vend", product := some "X" }]
    "CVE-2024-0001" rfl (by decide)

/-! ## C6: feed entries are keyed by link and keyword-scored -/

/-- C6: every record the syndicated-feed loop stores is keyed by the
entry's article link, and its severity comes from the case-insensitive
high-threat vocabulary scan of title and summary: a hit gives HIGH / 75,
otherwise the default mid-tier score 50 (with the UNKNOWN label) stands. -/
theorem fetch_feed_keyed_by_link_and_keyword_scored :
    (∀ (src : String) (now : Int) (e : FeedEntry) (l : String),
      (feedRecord src now e l).source_url = l ∧
      (matchesHighThreat (feedEntryTitle e) (feedEntrySummary e) = true →
        (feedRecord src now e l).threat_level = some "HIGH" ∧
        (feedRecord src now e l).threat_score = 75) ∧
      (matchesHighThreat (feedEntryTitle e) (feedEntrySummary e) = false →
        (feedRecord src now e l).threat_level = some "UNKNOWN" ∧
        (feedRecord src now e l).threat_score = 50)) ∧
    (∀ (src : String) (now : Int) (limit : Nat) (s : Store)
       (entries : List FeedEntry) (r : IntelItem),
      r ∈ fetch_feed src now limit s entries →
      r ∈ s ∨ ∃ e ∈ entries.take limit, ∃ l, e.link = some l ∧
        r = feedRecord src now e l) := by
  constructor
  · intro src now e l
    refine ⟨rfl, fun h => ?_, fun h => ?_⟩ <;> simp [feedRecord, h]
  · intro src now limit s entries r hr
    exact foldl_mem_invariant (feedStep src now)
      (fun e rec => ∃ l, e.link = some l ∧ rec = feedRecord src now e l)
      (fun s e => by
        unfold feedStep
        cases he : e.link with
        | none => exact Or.inl rfl
        | some l =>
          by_cases hk : hasKey s l
          · exact Or.inl (if_pos hk)
          · exact Or.inr ⟨feedRecord src now e l, if_neg hk, l, he, rfl⟩)
      (entries.take limit) s r hr

/-- Witness for C6: a concrete entry whose title contains a high-threat
vocabulary term is stored with the HIGH / 75 severity. -/
theorem fetch_feed_keyed_by_link_and_keyword_scored_witness :
    (feedRecord "Src" 0
        { link := some "https://example.com/a",
          title := some "Critical zero-day exploited",
          summary := some "details" }
        "https://example.com/a").threat_level = some "HIGH" ∧
    (feedRecord "Src" 0
        { link := some "https://example.com/a",
          title := some "Critical zero-day exploited",
          summary := some "details" }
        "https://example.com/a").threat_score = 75 :=
  (fetch_feed_keyed_by_link_and_keyword_scored.1 "Src" 0
    { link := some "https://example.com/a",
      title := some "Critical zero-day exploited",
      summary := some "details" }
    "https://example.com/a").2.1 (by decide)

/-! ## C7: stored score and confidence ranges -/

/-- C7: every record any adapter step stores has `threat_score` within
[0,100] and `confidence` within [0,1]; for the oracle-scored adapters
(OSINT, SOCMINT) this holds whenever the oracle reply's own fields respect
the interface ranges, absent fields defaulting to score 0 and
confidence 0.0. -/
theorem stored_records_within_range :
    (∀ (pyStr : CisaVuln → String) (now : Int) (s : Store) (v : CisaVuln)
       (r : IntelItem), r ∈ cisaStep pyStr now s v →
      r ∈ s ∨ scoreConfInRange r) ∧
    (∀ (src : String) (now : Int) (s : Store) (e : FeedEntry)
       (r : IntelItem), r ∈ feedStep src now s e →
      r ∈ s ∨ scoreConfInRange r) ∧
    (∀ (kw : String) (now : Int) (s : Store) (r0 : SearchResult)
       (ext : Except Unit OsintExtract) (a : Analysis) (r : IntelItem),
      (∀ n : Int, a.threat_score = some n → 0 ≤ n ∧ n ≤ 100) →
      (∀ q : ℚ, a.confidence = some q → 0 ≤ q ∧ q ≤ 1) →
      r ∈ osintStep kw now s r0 ext a → r ∈ s ∨ scoreConfInRange r) ∧
    (∀ (kw : String) (now : Int) (user subreddit : Option String)
       (s : Store) (r0 : SearchResult) (a : Analysis) (r : IntelItem),
      (∀ n : Int, a.threat_score = some n → 0 ≤ n ∧ n ≤ 100) →
      (∀ q : ℚ, a.confidence = some q → 0 ≤ q ∧ q ≤ 1) →
      r ∈ socmintStep kw now user subreddit s r0 a →
      r ∈ s ∨ scoreConfInRange r) ∧
    (∀ (fmt0 : ℚ → String) (hourStamp : String) (now : Int) (s : Store)
       (st : AircraftState) (r : IntelItem),
      r ∈ adsintStep fmt0 hourStamp now s st →
      r ∈ s ∨ scoreConfInRange r) ∧
    (∀ (dateStamp : String) (now : Int) (region : String) (s : Store)
       (p : RegionalPattern) (r : IntelItem),
      r ∈ maritintStep dateStamp now region s p →
      r ∈ s ∨ scoreConfInRange r) ∧
    (∀ (loc : String) (lat lon : ℚ) (s : Store) (it : StacItem)
       (r : IntelItem), r ∈ geointStep loc lat lon s it →
      r ∈ s ∨ scoreConfInRange r) ∧
    (∀ (hashFn : String → Int) (now : Int) (s : Store)
       (sig : DetectedSignal) (r : IntelItem),
      r ∈ sigStep hashFn now s sig → r ∈ s ∨ scoreConfInRange r) := by
  refine ⟨fun pyStr now s v r hr => ?_, fun src now s e r hr => ?_,
    fun kw now s r0 ext a r hsc hcf hr => ?_,
    fun kw now user sr s r0 a r hsc hcf hr => ?_,
    fun fmt0 hs now s st r hr => ?_, fun ds now reg s p r hr => ?_,
    fun loc lat lon s it r hr => ?_, fun hf now s sig r hr => ?_⟩
  · unfold cisaStep at hr
    split at hr
    · exact Or.inl hr
    · rcases mem_append_single hr with h | rfl
      · exact Or.inl h
      · exact Or.inr (by norm_num [scoreConfInRange, cisaRecord])
  · unfold feedStep at hr
    split at hr
    · exact Or.inl hr
    · split at hr
      · exact Or.inl hr
      · rcases mem_append_single hr with h | rfl
        · exact Or.inl h
        · refine Or.inr ?_
          simp only [scoreConfInRange, feedRecord]
          split_ifs <;> norm_num
  · unfold osintStep at hr
    split at hr
    · exact Or.inl hr
    · split at hr
      · exact Or.inl hr
      · split at hr
        · exact Or.inl hr
        · split at hr
          · exact Or.inl hr
          · rcases mem_append_single hr with h | rfl
            · exact Or.inl h
            · refine Or.inr ?_
              simp only [scoreConfInRange, osintRecord]
              exact analysis_fields_in_range a hsc hcf
  · unfold socmintStep at hr
    split at hr
    · exact Or.inl hr
    · rcases mem_append_single hr with h | rfl
      · exact Or.inl h
      · refine Or.inr ?_
        simp only [scoreConfInRange, socmintRecord]
        exact analysis_fields_in_range a hsc hcf
  · unfold adsintStep at hr
    split at hr
    · split at hr
      · exact Or.inl hr
      · rcases mem_append_single hr with h | rfl
        · exact Or.inl h
        · refine Or.inr ?_
          simp only [scoreConfInRange, adsintRecord]
          split_ifs <;> norm_num
    · exact Or.inl hr
  · unfold maritintStep at hr
    split at hr
    · exact Or.inl hr
    · rcases mem_append_single hr with h | rfl
      · exact Or.inl h
      · exact Or.inr (by norm_num [scoreConfInRange, maritintRecord])
  · unfold geointStep at hr
    split at hr
    · exact Or.inl hr
    · rcases mem_append_single hr with h | rfl
      · exact Or.inl h
      · exact Or.inr (by norm_num [scoreConfInRange, geointRecord])
  · unfold sigStep at hr
    split at hr
    · exact Or.inl hr
    · rcases mem_append_single hr with h | rfl
      · exact Or.inl h
      · refine Or.inr ?_
        simp only [scoreConfInRange, sigRecord]
        split_ifs <;> norm_num

/-- Witness for C7: a concrete maritime fixture record lands in range. -/
theorem stored_records_within_range_witness :
    maritintRecord "20240101" 0 "Black Sea"
        { name := "Kaliningrad", kind := "NAVAL BASE", lat := 5471 / 100,
          lon := 2051 / 100, detail := "Russian Baltic Fleet" } ∈
      ([] : Store) ∨
    scoreConfInRange
      (maritintRecord "20240101" 0 "Black Sea"
        { name := "Kaliningrad", kind := "NAVAL BASE", lat := 5471 / 100,
          lon := 2051 / 100, detail := "Russian Baltic Fleet" }) :=
  stored_records_within_range.2.2.2.2.2.1 "20240101" 0 "Black Sea" []
    { name := "Kaliningrad", kind := "NAVAL BASE", lat := 5471 / 100,
      lon := 2051 / 100, detail := "Russian Baltic Fleet" }
    (maritintRecord "20240101" 0 "Black Sea"
      { name := "Kaliningrad", kind := "NAVAL BASE", lat := 5471 / 100,
        lon := 2051 / 100, detail := "Russian Baltic Fleet" })
    (by simp [maritintStep, hasKey])

/-! ## C10: OSINT and SOCMINT stamp collection time -/

/-- C10: every record stored by the web-news (OSINT) and social-search
(SOCMINT) steps carries the ingestion-time `now` as its timestamp,
whatever publication date the source item itself carries (the search
result's `date` field is never read). -/
theorem osint_socmint_stamp_collection_time :
    (∀ (kw : String) (now : Int) (s : Store) (r0 : SearchResult)
       (ext : Except Unit OsintExtract) (a : Analysis) (r : IntelItem),
      r ∈ osintStep kw now s r0 ext a → r ∈ s ∨ r.timestamp = now) ∧
    (∀ (kw : String) (now : Int) (user subreddit : Option String)
       (s : Store) (r0 : SearchResult) (a : Analysis) (r : IntelItem),
      r ∈ socmintStep kw now user subreddit s r0 a →
      r ∈ s ∨ r.timestamp = now) := by
  constructor
  · intro kw now s r0 ext a r hr
    unfold osintStep at hr
    split at hr
    · exact Or.inl hr
    · split at hr
      · exact Or.inl hr
      · split at hr
        · exact Or.inl hr
        · split at hr
          · exact Or.inl hr
          · rcases mem_append_single hr with h | rfl
            · exact Or.inl h
            · exact Or.inr rfl
  · intro kw now user sr s r0 a r hr
    unfold socmintStep at hr
    split at hr
    · exact Or.inl hr
    · rcases mem_append_single hr with h | rfl
      · exact Or.inl h
      · exact Or.inr rfl

/-- Witness for C10: a concrete SOCMINT result dated in the past is still
stamped with the ingestion time. -/
theorem osint_socmint_stamp_collection_time_witness :
    socmintRecord "kw" 1700000000 none none
        { href := some "https://x.com/p/1", title := some "t",
          body := some "b", date := some "2001-01-01" }
        fallbackAnalysis ∈
      ([] : Store) ∨
    (socmintRecord "kw" 1700000000 none none
        { href := some "https://x.com/p/1", title := some "t",
          body := some "b", date := some "2001-01-01" }
        fallbackAnalysis).timestamp = 1700000000 :=
  osint_socmint_stamp_collection_time.2 "kw" 1700000000 none none []
    { href := some "https://x.com/p/1", title := some "t",
      body := some "b", date := some "2001-01-01" }
    fallbackAnalysis
    (socmintRecord "kw" 1700000000 none none
      { href := some "https://x.com/p/1", title := some "t",
        body := some "b", date := some "2001-01-01" }
      fallbackAnalysis)
    (by simp [socmintStep, hasKey])

end Geoscope
